import Mathlib

/-!
Verification development for the `rblxopencloud` client library
(OAuth2 token lifecycle and webhook signature verification core).

The Python source (`rblxopencloud/webhook.py`, `rblxopencloud/oauth2.py`)
is embedded shallowly: byte strings are `List Nat` (each element a byte),
Python `str` values are `List Char`, machine-word arithmetic is `Nat`
with explicit reduction modulo `2 ^ 32`, and fallible code returns
`Option` / `Except`.  Library calls made by the source (hashlib / hmac /
base64 / the `requests` HTTP responses) are embedded by executable Lean
implementations of the same functions; purely external collaborators
(the JSON parser, the JWT decoder, `send_request`) appear as explicit
arguments of the embedded operations.
-/

namespace RblxOC

/-! ## Bytes and 32-bit words -/

/-- A byte string: each element is one byte (`< 256` for real inputs). -/
abbrev Bytes := List Nat

/-- Reduce to a 32-bit word, as SHA-256 arithmetic requires. -/
def u32 (x : Nat) : Nat := x % 4294967296

/-- Right rotation of a 32-bit word by `n` bits. -/
def rotr (n x : Nat) : Nat := u32 ((x >>> n) ||| (x <<< (32 - n)))

/-- Bitwise complement of a 32-bit word. -/
def wnot (x : Nat) : Nat := 4294967295 - u32 x

/-! ## SHA-256 (FIPS 180-4), executable -/

/-- The 64 SHA-256 round constants (FIPS 180-4 section 4.2.2, written
in decimal). -/
def sha256K : List Nat :=
  [1116352408, 1899447441, 3049323471, 3921009573,
   961987163, 1508970993, 2453635748, 2870763221,
   3624381080, 310598401, 607225278, 1426881987,
   1925078388, 2162078206, 2614888103, 3248222580,
   3835390401, 4022224774, 264347078, 604807628,
   770255983, 1249150122, 1555081692, 1996064986,
   2554220882, 2821834349, 2952996808, 3210313671,
   3336571891, 3584528711, 113926993, 338241895,
   666307205, 773529912, 1294757372, 1396182291,
   1695183700, 1986661051, 2177026350, 2456956037,
   2730485921, 2820302411, 3259730800, 3345764771,
   3516065817, 3600352804, 4094571909, 275423344,
   430227734, 506948616, 659060556, 883997877,
   958139571, 1322822218, 1537002063, 1747873779,
   1955562222, 2024104815, 2227730452, 2361852424,
   2428436474, 2756734187, 3204031479, 3329325298]

/-- The SHA-256 initial hash value (FIPS 180-4 section 5.3.3, written
in decimal). -/
def sha256H0 : List Nat :=
  [1779033703, 3144134277, 1013904242, 2773480762,
   1359893119, 2600822924, 528734635, 1541459225]

/-- Small sigma 0 of the message schedule. -/
def ssig0 (x : Nat) : Nat := (rotr 7 x) ^^^ (rotr 18 x) ^^^ (x >>> 3)

/-- Small sigma 1 of the message schedule. -/
def ssig1 (x : Nat) : Nat := (rotr 17 x) ^^^ (rotr 19 x) ^^^ (x >>> 10)

/-- Big sigma 0 of the compression function. -/
def bsig0 (x : Nat) : Nat := (rotr 2 x) ^^^ (rotr 13 x) ^^^ (rotr 22 x)

/-- Big sigma 1 of the compression function. -/
def bsig1 (x : Nat) : Nat := (rotr 6 x) ^^^ (rotr 11 x) ^^^ (rotr 25 x)

/-- Group a byte list into big-endian 32-bit words, four bytes per word. -/
def bytesToWords : Bytes → List Nat
  | a :: b :: c :: d :: rest =>
      (u32 (a <<< 24 + b <<< 16 + c <<< 8 + d)) :: bytesToWords rest
  | _ => []

/-- Serialize a 32-bit word as four big-endian bytes. -/
def wordToBytes (w : Nat) : Bytes :=
  [(w >>> 24) % 256, (w >>> 16) % 256, (w >>> 8) % 256, w % 256]

/-- SHA-256 padding: append `0x80`, zeros, and the 64-bit bit length. -/
def sha256pad (msg : Bytes) : Bytes :=
  let len := msg.length
  let zeros := (120 - ((len + 1) % 64)) % 64
  let bits := len * 8
  msg ++ 0x80 :: List.replicate zeros 0 ++
    [(bits >>> 56) % 256, (bits >>> 48) % 256, (bits >>> 40) % 256,
     (bits >>> 32) % 256, (bits >>> 24) % 256, (bits >>> 16) % 256,
     (bits >>> 8) % 256, bits % 256]

/-- One extension step of the SHA-256 message schedule. -/
def wStep (w : List Nat) : List Nat :=
  let i := w.length
  w ++ [u32 (ssig1 (w.getD (i - 2) 0) + w.getD (i - 7) 0 +
             ssig0 (w.getD (i - 15) 0) + w.getD (i - 16) 0)]

/-- Iterate the schedule extension `n` times. -/
def extendW (w : List Nat) : Nat → List Nat
  | 0 => w
  | n + 1 => extendW (wStep w) n

/-- One SHA-256 round: `st` is `[a,b,c,d,e,f,g,h]`, `kw` the round
constant paired with the schedule word. -/
def sha256Round (st : List Nat) (kw : Nat × Nat) : List Nat :=
  let a := st.getD 0 0; let b := st.getD 1 0; let c := st.getD 2 0
  let d := st.getD 3 0; let e := st.getD 4 0; let f := st.getD 5 0
  let g := st.getD 6 0; let h := st.getD 7 0
  let ch := (e &&& f) ^^^ (wnot e &&& g)
  let maj := (a &&& b) ^^^ (a &&& c) ^^^ (b &&& c)
  let t1 := u32 (h + bsig1 e + ch + kw.1 + kw.2)
  let t2 := u32 (bsig0 a + maj)
  [u32 (t1 + t2), a, b, c, u32 (d + t1), e, f, g]

/-- Compress one 64-byte block into the running hash state. -/
def sha256Block (h : List Nat) (block : Bytes) : List Nat :=
  let w := extendW (bytesToWords block) 48
  let st := (sha256K.zip w).foldl sha256Round h
  List.zipWith (fun x y => u32 (x + y)) h st

/-- Fold the compression over 64-byte blocks; the fuel only bounds the
iteration count (any fuel at least the block count computes the fold),
keeping the recursion structural so that proofs can evaluate it. -/
def sha256BlocksAux (fuel : Nat) (h : List Nat) (msg : Bytes) : List Nat :=
  match fuel with
  | 0 => h
  | f + 1 =>
      if msg.length = 0 then h
      else sha256BlocksAux f (sha256Block h (msg.take 64)) (msg.drop 64)

/-- Split a padded message into 64-byte blocks and fold the compression. -/
def sha256Blocks (h : List Nat) (msg : Bytes) : List Nat :=
  sha256BlocksAux msg.length h msg

/-- SHA-256 of a byte string, as a 32-byte digest. -/
def sha256 (msg : Bytes) : Bytes :=
  ((sha256Blocks sha256H0 (sha256pad msg)).map wordToBytes).flatten

/-! ## HMAC-SHA256 (RFC 2104) -/

/-- Pad or hash the key to the 64-byte SHA-256 block size. -/
def hmacKeyBlock (key : Bytes) : Bytes :=
  let k0 := if key.length > 64 then sha256 key else key
  k0 ++ List.replicate (64 - k0.length) 0

/-- HMAC-SHA256 of `msg` keyed by `key`, as a 32-byte digest. -/
def hmacSha256 (key msg : Bytes) : Bytes :=
  let kb := hmacKeyBlock key
  sha256 ((kb.map (fun b => b ^^^ 0x5c)) ++
          sha256 ((kb.map (fun b => b ^^^ 0x36)) ++ msg))

/-! ## Base64 (RFC 4648), standard and URL-safe alphabets -/

/-- The standard base64 alphabet, as used by `base64.b64encode`. -/
def b64StdAlphabet : List Char :=
  "ABCDEFGHIJKLMNOPQRSTUVWXYZabcdefghijklmnopqrstuvwxyz0123456789+/".data

/-- The URL-safe base64 alphabet, as used by `base64.urlsafe_b64encode`. -/
def b64UrlAlphabet : List Char :=
  "ABCDEFGHIJKLMNOPQRSTUVWXYZabcdefghijklmnopqrstuvwxyz0123456789-_".data

/-- The base64 padding character `=`. -/
def b64Pad : Char := Char.ofNat 61

/-- The alphabet character for a 6-bit group. -/
def b64Char (alpha : List Char) (n : Nat) : Char :=
  alpha.getD (n % 64) (Char.ofNat 65)

/-- Base64-encode a byte string three bytes at a time, emitting `=`
padding for a final group of one or two bytes. -/
def b64chunks (alpha : List Char) : Bytes → List Char
  | a :: b :: c :: rest =>
      b64Char alpha (a >>> 2) ::
      b64Char alpha ((a % 4) <<< 4 ||| (b >>> 4)) ::
      b64Char alpha ((b % 16) <<< 2 ||| (c >>> 6)) ::
      b64Char alpha (c % 64) :: b64chunks alpha rest
  | [a, b] =>
      [b64Char alpha (a >>> 2), b64Char alpha ((a % 4) <<< 4 ||| (b >>> 4)),
       b64Char alpha ((b % 16) <<< 2), b64Pad]
  | [a] =>
      [b64Char alpha (a >>> 2), b64Char alpha ((a % 4) <<< 4), b64Pad, b64Pad]
  | [] => []

/-- `base64.b64encode(bs).decode()`. -/
def b64encode (bs : Bytes) : List Char := b64chunks b64StdAlphabet bs

/-- `base64.urlsafe_b64encode(bs).replace(b"=", b"").decode()`:
URL-safe base64 with the padding stripped. -/
def b64urlNoPad (bs : Bytes) : List Char :=
  (b64chunks b64UrlAlphabet bs).filter (fun c => c ≠ b64Pad)

/-! ## Python string and integer helpers -/

/-- The comma character. -/
def commaC : Char := Char.ofNat 44

/-- The equals-sign character. -/
def eqC : Char := Char.ofNat 61

/-- Python `s.split(sep)` for a one-character separator: splits on every
occurrence, so `"".split(",") == [""]` and `"a,,b".split(",") == ["a","","b"]`. -/
def splitChar (sep : Char) : List Char → List (List Char)
  | [] => [[]]
  | c :: rest =>
      let r := splitChar sep rest
      if c = sep then [] :: r else (c :: r.headD []) :: r.tail

/-- Python `s.split(sep, maxsplit=1)`: splits at the first occurrence only. -/
def split1Char (sep : Char) : List Char → List (List Char)
  | [] => [[]]
  | c :: rest =>
      if c = sep then [[], rest]
      else
        match split1Char sep rest with
        | x :: xs => (c :: x) :: xs
        | [] => [[c]]

/-- The decimal digit character for `d % 10`. -/
def digitChar (d : Nat) : Char := Char.ofNat (48 + d % 10)

/-- Fuel-bounded decimal rendering; any fuel at least the input renders
all digits, keeping the recursion structural so proofs can evaluate it. -/
def natCharsAux (fuel : Nat) (n : Nat) : List Char :=
  match fuel with
  | 0 => [digitChar n]
  | f + 1 =>
      if n < 10 then [digitChar n]
      else natCharsAux f (n / 10) ++ [digitChar (n % 10)]

/-- Decimal rendering of a natural number, as Python `str`/f-string
formatting produces for a nonnegative `int`. -/
def natChars (n : Nat) : List Char := natCharsAux n n

/-- The numeric value of a decimal digit character, if it is one. -/
def pyDigit? (c : Char) : Option Nat :=
  if 48 ≤ c.toNat ∧ c.toNat ≤ 57 then some (c.toNat - 48) else none

/-- Left-to-right accumulation of decimal digits; fails on a non-digit. -/
def digitsValAux (acc : Nat) : List Char → Option Nat
  | [] => some acc
  | c :: rest =>
      match pyDigit? c with
      | some d => digitsValAux (acc * 10 + d) rest
      | none => none

/-- Value of a nonempty all-digit character list. -/
def digitsVal? (l : List Char) : Option Nat :=
  if l.isEmpty then none else digitsValAux 0 l

/-- Python `int(s)` on a decimal string with an optional leading minus
sign; `none` models the `ValueError` raised on malformed input. -/
def pyInt (l : List Char) : Option Int :=
  match l with
  | [] => none
  | c :: rest =>
      if c = Char.ofNat 45 then
        match digitsVal? rest with
        | some n => some (-(n : Int))
        | none => none
      else
        match digitsVal? (c :: rest) with
        | some n => some (n : Int)
        | none => none

/-- The bytes of an ASCII string, as Python `str.encode()` yields for
ASCII text (every string this development feeds through it is ASCII). -/
def strBytes (l : List Char) : Bytes := l.map Char.toNat

/-! ## Webhook model (`rblxopencloud/webhook.py`) -/

/-- Modelled from the spec: `user.py` is not under `src/`; per the spec a
notification's user is a typed reference carrying the user id. -/
structure UserModel where
  id : Int
  deriving DecidableEq, Repr

/-- The decoded JSON body of a webhook request, restricted to the fields
`process_notification` and the notification constructors read:
`NotificationId`, `EventTime`, `EventType`, and `EventPayload`'s
`UserId` / `GameIds`. -/
structure BodyVal where
  notificationId : List Char
  eventTime : List Char
  eventType : List Char
  payloadUserId : Int
  payloadGameIds : List Int
  deriving DecidableEq, Repr

/-- `(body["EventTime"].split("Z")[0] + "0" * 6)[0:26]`, the string the
source hands to `datetime.fromisoformat` (an external library call, so
the normalized string itself is kept as the timestamp value). -/
def normalizeEventTime (s : List Char) : List Char :=
  ((splitChar (Char.ofNat 90) s).headD [] ++ List.replicate 6 (Char.ofNat 48)).take 26

/-- The typed notification passed to a handler: `Notification`,
`TestNotification`, or `RightToErasureRequestNotification`. -/
inductive NotificationVal
  | generic (notificationId : List Char) (timestamp : List Char)
  | test (notificationId : List Char) (timestamp : List Char) (user : UserModel)
  | erasure (notificationId : List Char) (timestamp : List Char)
      (userId : Int) (gameIds : List Int)
  deriving DecidableEq, Repr

/-- Exceptions the webhook path can raise: the two library event errors,
a handler-raised exception (tagged by an arbitrary code), and the Python
`IndexError` / `ValueError` the parsing slips can raise. -/
inductive WhError
  | unknownEventType
  | undefinedEventType
  | handlerFailure (tag : Nat)
  | indexErr
  | valueErr
  deriving DecidableEq, Repr

/-- The observable outcome of `process_notification`: an HTTP-shaped
`(body, status)` return value, or a propagated exception. -/
inductive WhOutcome
  | response (body : List Char) (status : Nat)
  | raised (e : WhError)
  deriving DecidableEq, Repr

/-- The `("Invalid signature", 401)` rejection body. -/
def invalidSigMsg : List Char := "Invalid signature".data

/-- A `Webhook` instance: the stored secret (already encoded to bytes by
`__init__`), the registered event handlers keyed by internal event name
(a handler returns `some tag` to model raising an exception), and
whether an `on_error` handler is registered. -/
structure Webhook where
  secret : Option Bytes
  events : List Char → Option (NotificationVal → Option Nat)
  onError : Bool

/-- Python truthiness of the stored secret (`if self.secret:`):
false for `None` and for empty bytes. -/
def secretTruthy : Option Bytes → Bool
  | none => false
  | some k => !k.isEmpty

/-- Python truthiness of the header argument (`if not secret_header:`):
false for `None` and for the empty string. -/
def headerTruthy : Option (List Char) → Bool
  | none => false
  | some s => !s.isEmpty

/-- The byte of the ASCII dot joining timestamp and body in the HMAC
message (`b'.'`). -/
def dotByte : Nat := 46

/-- The signature half of the validation block (webhook.py lines 34-42),
entered only when the secret is truthy.  `ok true` models the early
`return "Invalid signature", 401`; `error` models an uncaught Python
exception escaping the parsing expressions. -/
def sigStep (secret : Option Bytes) (header : Option (List Char))
    (body : Bytes) : Except WhError Bool :=
  if secretTruthy secret then
    if !headerTruthy header then Except.ok true
    else
      let parts := splitChar commaC (header.getD [])
      if parts.length < 2 then Except.ok true
      else
        match (splitChar eqC (parts.getD 0 [])).get? 1 with
        | none => Except.error WhError.indexErr
        | some tsStr =>
          match (split1Char eqC (parts.getD 1 [])).get? 1 with
          | none => Except.error WhError.indexErr
          | some provided =>
            if b64encode (hmacSha256 (secret.getD [])
                (strBytes tsStr ++ dotByte :: body)) = provided
            then Except.ok false
            else Except.ok true
  else Except.ok false

/-- The replay-window half of the validation block (webhook.py lines
44-48), entered whenever the header is truthy.  It re-splits the header
and rejects when `0 < now - t > 600`, a Python chained comparison
meaning `0 < now - t` AND `now - t > 600`. -/
def tsStep (header : Option (List Char)) (now : Int) : Except WhError Bool :=
  if headerTruthy header then
    let parts := splitChar commaC (header.getD [])
    match (splitChar eqC (parts.getD 0 [])).get? 1 with
    | none => Except.error WhError.indexErr
    | some tsStr =>
      match pyInt tsStr with
      | none => Except.error WhError.valueErr
      | some tv =>
        if 0 < now - tv ∧ now - tv > 600 then Except.ok true
        else Except.ok false
  else Except.ok false

/-- The whole `if validate_signature:` block: the signature step's early
rejection short-circuits, otherwise the replay-window step runs.
`ok true` = reject with `("Invalid signature", 401)`. -/
def verifyPhase (secret : Option Bytes) (header : Option (List Char))
    (validate : Bool) (now : Int) (body : Bytes) : Except WhError Bool :=
  if validate then
    match sigStep secret header body with
    | Except.error e => Except.error e
    | Except.ok true => Except.ok true
    | Except.ok false => tsStep header now
  else Except.ok false

/-- The module-level `EVENT_TYPES` mapping. -/
def EVENT_TYPES (s : List Char) : Option (List Char) :=
  if s = "SampleNotification".data then some "on_test".data
  else if s = "RightToErasureRequest".data then
    some "on_right_to_erasure_request".data
  else none

/-- Construction of the typed notification for a mapped event name
(webhook.py lines 58-61). -/
def buildNotification (b : BodyVal) (eventName : List Char) : NotificationVal :=
  if eventName = "on_test".data then
    NotificationVal.test b.notificationId (normalizeEventTime b.eventTime)
      ⟨b.payloadUserId⟩
  else if eventName = "on_right_to_erasure_request".data then
    NotificationVal.erasure b.notificationId (normalizeEventTime b.eventTime)
      b.payloadUserId b.payloadGameIds
  else
    NotificationVal.generic b.notificationId (normalizeEventTime b.eventTime)

/-- The dispatch phase (webhook.py lines 52-73): event lookup, typed
notification construction, handler invocation, and the `except` clause
that routes any raised error to `on_error` when registered and re-raises
otherwise.  The second component is the observation of the handler call
that took place: the event name and the notification delivered to it. -/
def dispatchPhase (w : Webhook) (b : BodyVal) :
    WhOutcome × Option (List Char × NotificationVal) :=
  match EVENT_TYPES b.eventType with
  | none =>
      if w.onError then (WhOutcome.response [] 204, none)
      else (WhOutcome.raised WhError.unknownEventType, none)
  | some name =>
      let n := buildNotification b name
      match w.events name with
      | none =>
          if w.onError then (WhOutcome.response [] 204, none)
          else (WhOutcome.raised WhError.undefinedEventType, none)
      | some handler =>
          match handler n with
          | some tag =>
              if w.onError then (WhOutcome.response [] 204, some (name, n))
              else (WhOutcome.raised (WhError.handlerFailure tag), some (name, n))
          | none => (WhOutcome.response [] 204, some (name, n))

/-- What runs after verification succeeds: `json.loads(body)` (whose
parse, an external library call, is passed in as `parsed`; `none` models
its `ValueError` on malformed JSON) followed by the dispatch phase. -/
def bodyPhase (w : Webhook) (parsed : Option BodyVal) :
    WhOutcome × Option (List Char × NotificationVal) :=
  match parsed with
  | none => (WhOutcome.raised WhError.valueErr, none)
  | some b => dispatchPhase w b

/-- `Webhook.process_notification(body, secret_header, validate_signature)`
at clock value `now` (`time.time()`). -/
def processNotification (w : Webhook) (body : Bytes) (parsed : Option BodyVal)
    (header : Option (List Char)) (validate : Bool) (now : Int) :
    WhOutcome × Option (List Char × NotificationVal) :=
  match verifyPhase w.secret header validate now body with
  | Except.error e => (WhOutcome.raised e, none)
  | Except.ok true => (WhOutcome.response invalidSigMsg 401, none)
  | Except.ok false => bodyPhase w parsed

/-- The well-formed signature header `t={t},v1={sig}` with `sig` the
base64-encoded HMAC-SHA256 of `"{t}.{body}"` keyed by `secret`. -/
def validHeader (t : Nat) (secret : Bytes) (body : Bytes) : List Char :=
  "t=".data ++ natChars t ++ commaC ::
    ("v1=".data ++ b64encode (hmacSha256 secret (strBytes (natChars t) ++ dotByte :: body)))

/-! ## OAuth2 model (`rblxopencloud/oauth2.py`)

Time is modelled in integer seconds (`time.time()` / `datetime.now()`
values), and a `datetime.timedelta(d)` — whose first positional argument
is a count of days — adds `d * 86400` seconds. -/

/-- The space character. -/
def spaceC : Char := Char.ofNat 32

/-- The exception kinds the OAuth2 call sites raise: the named library
exceptions, the generic `rblx_opencloudException` carrying the HTTP
status, and the Python `KeyError` a missing dictionary key raises. -/
inductive OAuthError
  | invalidKey
  | invalidCode
  | serviceUnavailable
  | insufficientScope (scope : List Char)
  | generic (status : Nat)
  | keyErr
  deriving DecidableEq, Repr

/-- `response.ok` of the `requests` library: true exactly when the
status code is below 400 (not only for 2xx). -/
def respOk (status : Nat) : Bool := status < 400

/-- Decidable equality of `Except` results, so concrete outcomes can be
compared by evaluation. -/
instance {ε α : Type} [DecidableEq ε] [DecidableEq α] :
    DecidableEq (Except ε α) := fun x y =>
  match x, y with
  | Except.ok a, Except.ok b =>
      if h : a = b then Decidable.isTrue (by rw [h])
      else Decidable.isFalse (by intro he; cases he; exact h rfl)
  | Except.error a, Except.error b =>
      if h : a = b then Decidable.isTrue (by rw [h])
      else Decidable.isFalse (by intro he; cases he; exact h rfl)
  | Except.ok _, Except.error _ => Decidable.isFalse (by intro he; cases he)
  | Except.error _, Except.ok _ => Decidable.isFalse (by intro he; cases he)

/-- Identity claims read out of a decoded ID token or a userinfo body
(`id`/`sub`, `preferred_username`, `nickname`, `picture`, `created_at`). -/
structure ClaimsData where
  id : Option (List Char)
  sub : Option (List Char)
  preferredUsername : Option (List Char)
  nickname : Option (List Char)
  picture : Option (List Char)
  createdAt : Option Int
  deriving DecidableEq, Repr

/-- Modelled from the spec: `user.py` is not under `src/`; per the spec
the user object is a typed reference carrying the id and the profile
fields the OAuth2 code assigns onto it. -/
structure OAuthUser where
  id : Option (List Char)
  username : Option (List Char)
  displayName : Option (List Char)
  headshotUri : Option (List Char)
  createdAt : Option Int
  deriving DecidableEq, Repr

/-- Python `a or b` over two optional strings: the first operand wins
unless it is `None` or empty (falsy). -/
def pyOrStr (a b : Option (List Char)) : Option (List Char) :=
  match a with
  | some v => if v.isEmpty then b else some v
  | none => b

/-- The user object built from identity claims, shared by
`AccessToken.__init__` and `fetch_userinfo`: id is
`data.get("id") or data.get("sub")`, and `created_at` is kept only when
the raw value is truthy (so a literal `0` timestamp is dropped). -/
def mkUserFromClaims (c : ClaimsData) : OAuthUser :=
  { id := pyOrStr c.id c.sub
    username := c.preferredUsername
    displayName := c.nickname
    headshotUri := c.picture
    createdAt :=
      match c.createdAt with
      | some v => if v = 0 then none else some v
      | none => none }

/-- The JSON payload of a token-endpoint response, restricted to the
fields `exchange_code` / `refresh_token` read. -/
structure TokenPayload where
  accessToken : List Char
  refreshTokenStr : List Char
  scope : List Char
  expiresIn : Int
  idToken : Option (List Char)
  deriving DecidableEq, Repr

/-- A token-endpoint HTTP response: status code plus parsed JSON body. -/
structure TokenHttpResponse where
  status : Nat
  payload : TokenPayload
  deriving DecidableEq, Repr

/-- The `AccessToken` object constructed from a token response. -/
structure AccessTokenModel where
  token : List Char
  refreshTokenStr : List Char
  scope : List (List Char)
  expiresAt : Int
  user : Option OAuthUser
  deriving DecidableEq, Repr

/-- `AccessToken.__init__`: note `expires_at` is
`datetime.now() + datetime.timedelta(payload["expires_in"])`, and
`timedelta`'s first positional argument counts DAYS, so the embedded
clock advances by `86400 * expires_in` seconds. -/
def mkAccessToken (payload : TokenPayload) (idt : Option ClaimsData)
    (now : Int) : AccessTokenModel :=
  { token := payload.accessToken
    refreshTokenStr := payload.refreshTokenStr
    scope := splitChar spaceC payload.scope
    expiresAt := now + 86400 * payload.expiresIn
    user := idt.map mkUserFromClaims }

/-- One entry of the certs endpoint's `keys` array.  The source turns the
`x`/`y` base64url coordinates into a `cryptography` public-key object by
a deterministic external parse, so the coordinate pair stands for the
cached key object. -/
structure CertKey where
  x : List Char
  y : List Char
  deriving DecidableEq, Repr

/-- The OpenID certs cache of one `OAuth2App`:
`__openid_certs_cache` and `__openid_certs_cache_updated`. -/
structure CertsCache where
  cache : Option (List CertKey)
  updatedAt : Option Int
  deriving DecidableEq, Repr

/-- A certs-endpoint response: status code plus parsed key list. -/
structure CertsResponse where
  status : Nat
  keys : List CertKey
  deriving DecidableEq, Repr

/-- Python truthiness of `self.__openid_certs_cache`:
false for `None` and for an empty list. -/
def certsTruthy (st : CertsCache) : Bool :=
  match st.cache with
  | some (_ :: _) => true
  | _ => false

/-- The certs-cache step inside `exchange_code` (oauth2.py lines
323-337): when the cache is falsy or older than
`openid_certs_cache_seconds`, fetch the certs (the returned counter is
the number of underlying fetches, 0 or 1), fail with `ServiceUnavailable`
when the fetch response is not ok, and otherwise replace the cached keys
and record the fetch time.  A fresh cache is reused without a fetch. -/
def getOpenidKeys (ttl : Int) (st : CertsCache) (now : Int)
    (resp : CertsResponse) : Except OAuthError (List CertKey × CertsCache) × Nat :=
  if !certsTruthy st || now - st.updatedAt.getD 0 > ttl then
    if respOk resp.status then
      (Except.ok (resp.keys, ⟨some resp.keys, some now⟩), 1)
    else (Except.error OAuthError.serviceUnavailable, 1)
  else
    (Except.ok (st.cache.getD [], st), 0)

/-- The `for cert in self.__openid_certs_cache` loop: the first key for
which the external `jwt.decode` succeeds supplies the claims;
every failure is swallowed. -/
def firstDecode (jwtDecode : List Char → CertKey → Option ClaimsData)
    (tok : List Char) : List CertKey → Option ClaimsData
  | [] => none
  | k :: ks =>
      match jwtDecode tok k with
      | some c => some c
      | none => firstDecode jwtDecode tok ks

/-- The status dispatch closing `exchange_code` (oauth2.py lines
346-350): `response.ok` (status < 400) returns the `AccessToken`, then
400 → `InvalidKey`, 401 → `InvalidCode`, ≥ 500 → `ServiceUnavailable`,
anything else → the generic exception carrying the status. -/
def exchangeStatusResult (resp : TokenHttpResponse) (idt : Option ClaimsData)
    (now : Int) : Except OAuthError AccessTokenModel :=
  if respOk resp.status then Except.ok (mkAccessToken resp.payload idt now)
  else if resp.status = 400 then Except.error OAuthError.invalidKey
  else if resp.status = 401 then Except.error OAuthError.invalidCode
  else if 500 ≤ resp.status then Except.error OAuthError.serviceUnavailable
  else Except.error (OAuthError.generic resp.status)

/-- `OAuth2App.exchange_code`, from the token-endpoint response on:
the ID-token block (certs cache plus decode loop) runs first when the
response body carries an `id_token`, then the status dispatch.
`jwtDecode` is the external JWT library; `certsResp` is what the certs
endpoint would answer if fetched; the `Nat` counts underlying certs
fetches. -/
def exchangeCode (ttl : Int) (st : CertsCache) (resp : TokenHttpResponse)
    (certsResp : CertsResponse)
    (jwtDecode : List Char → CertKey → Option ClaimsData) (now : Int) :
    Except OAuthError AccessTokenModel × CertsCache × Nat :=
  match resp.payload.idToken with
  | none => (exchangeStatusResult resp none now, st, 0)
  | some tok =>
      match getOpenidKeys ttl st now certsResp with
      | (Except.error e, cnt) => (Except.error e, st, cnt)
      | (Except.ok (keys, st2), cnt) =>
          (exchangeStatusResult resp (firstDecode jwtDecode tok keys) now, st2, cnt)

/-- `OAuth2App.refresh_token`, from the token-endpoint response on:
no ID-token handling, and the status dispatch (oauth2.py lines 364-367)
has NO 401 branch — `response.ok`, then 400 → `InvalidKey`,
≥ 500 → `ServiceUnavailable`, anything else (401 included) → the generic
exception carrying the status. -/
def refreshTokenResult (resp : TokenHttpResponse) (now : Int) :
    Except OAuthError AccessTokenModel :=
  if respOk resp.status then Except.ok (mkAccessToken resp.payload none now)
  else if resp.status = 400 then Except.error OAuthError.invalidKey
  else if 500 ≤ resp.status then Except.error OAuthError.serviceUnavailable
  else Except.error (OAuthError.generic resp.status)

/-- `OAuth2App.revoke_token`, from the revoke-endpoint response on:
`response.ok` returns, 400 → `InvalidKey`, ≥ 500 → `ServiceUnavailable`,
anything else → generic; the response body is never inspected. -/
def revokeTokenResult (status : Nat) : Except OAuthError Unit :=
  if respOk status then Except.ok ()
  else if status = 400 then Except.error OAuthError.invalidKey
  else if 500 ≤ status then Except.error OAuthError.serviceUnavailable
  else Except.error (OAuthError.generic status)

/-- The shared 401 body handling of the three fetch operations:
`data["error"] == "insufficient_scope"` raises `InsufficientScope`
carrying `data["scope"]`, any other 401 body raises `InvalidKey`; a
missing key raises Python `KeyError`. -/
def insufficientScopeCheck (error : Option (List Char))
    (scope : Option (List Char)) {α} : Except OAuthError α :=
  match error with
  | none => Except.error OAuthError.keyErr
  | some e =>
      if e = "insufficient_scope".data then
        match scope with
        | none => Except.error OAuthError.keyErr
        | some s => Except.error (OAuthError.insufficientScope s)
      else Except.error OAuthError.invalidKey

/-- The userinfo body, restricted to the fields `fetch_userinfo` reads. -/
structure UserinfoData where
  error : Option (List Char)
  scope : Option (List Char)
  claims : ClaimsData
  deriving DecidableEq, Repr

/-- `PartialAccessToken.fetch_userinfo`, from the `send_request` result on
(`send_request` only lets statuses 200 and 401 through). -/
def fetchUserinfo (status : Nat) (data : UserinfoData) :
    Except OAuthError OAuthUser :=
  if status = 401 then insufficientScopeCheck data.error data.scope
  else Except.ok (mkUserFromClaims data.claims)

/-- The introspection body, restricted to the fields
`fetch_token_info` reads (`scope` doubles as the 401 body's
missing-scope value and the 200 body's scope string). -/
structure IntrospectData where
  error : Option (List Char)
  scope : Option (List Char)
  active : Option Bool
  jti : Option (List Char)
  clientId : Option Int
  sub : Option Int
  exp : Option Int
  iat : Option Int
  deriving DecidableEq, Repr

/-- The `AccessTokenInfo` view over an introspection body. -/
structure AccessTokenInfoModel where
  active : Bool
  id : List Char
  clientId : Int
  userId : Int
  scope : List (List Char)
  expiresAt : Int
  issuedAt : Int
  deriving DecidableEq, Repr

/-- `PartialAccessToken.fetch_token_info`, from the `send_request` result
on: the shared 401 handling, then `AccessTokenInfo(data)` whose
constructor indexes every required field (KeyError when absent). -/
def fetchTokenInfo (status : Nat) (data : IntrospectData) :
    Except OAuthError AccessTokenInfoModel :=
  if status = 401 then insufficientScopeCheck data.error data.scope
  else
    match data.active, data.jti, data.clientId, data.sub, data.scope, data.exp, data.iat with
    | some a, some j, some c, some s, some sc, some e, some i =>
        Except.ok ⟨a, j, c, s, splitChar spaceC sc, e, i⟩
    | _, _, _, _, _, _, _ => Except.error OAuthError.keyErr

/-- An owner reference attached to an authorized experience. -/
inductive OwnerRef
  | user (id : Int)
  | group (id : Int)
  deriving DecidableEq, Repr

/-- An authorized experience reference. -/
structure ExperienceRef where
  id : Int
  owner : Option OwnerRef
  deriving DecidableEq, Repr

/-- A JSON scalar id, as the `User`/`Group` constructors receive it:
the owner's numeric id or a sliced creator-id string. -/
inductive JId
  | jint (n : Int)
  | jstr (s : List Char)
  deriving DecidableEq, Repr

/-- An authorized account reference (user or group). -/
inductive AccountRef
  | userAcc (id : JId)
  | groupAcc (id : JId)
  deriving DecidableEq, Repr

/-- One entry of `data["resource_infos"]`, restricted to the fields the
parsing loop reads. -/
structure ResourceInfoEntry where
  ownerType : List Char
  ownerId : Int
  universeIds : Option (List Int)
  creatorIds : Option (List (List Char))
  deriving DecidableEq, Repr

/-- The `Resources` view. -/
structure ResourcesModel where
  experiences : List ExperienceRef
  accounts : List AccountRef
  deriving DecidableEq, Repr

/-- The experiences one resource entry contributes. -/
def entryExperiences (r : ResourceInfoEntry) : List ExperienceRef :=
  match r.universeIds with
  | none => []
  | some ids =>
      ids.map (fun i =>
        { id := i
          owner :=
            if r.ownerType = "User".data then some (OwnerRef.user r.ownerId)
            else if r.ownerType = "Group".data then some (OwnerRef.group r.ownerId)
            else none })

/-- The accounts one resource entry contributes: `"U"` refers to the
entry's owner, a `U`-prefixed id to a user, a `G`-prefixed id to a
group, and anything else is silently skipped. -/
def entryAccounts (r : ResourceInfoEntry) : List AccountRef :=
  match r.creatorIds with
  | none => []
  | some ids =>
      ids.filterMap (fun cid =>
        if cid = "U".data then some (AccountRef.userAcc (JId.jint r.ownerId))
        else
          match cid with
          | c :: rest =>
              if c = Char.ofNat 85 then some (AccountRef.userAcc (JId.jstr rest))
              else if c = Char.ofNat 71 then some (AccountRef.groupAcc (JId.jstr rest))
              else none
          | [] => none)

/-- The resources body, restricted to the fields `fetch_resources` reads. -/
structure ResourcesData where
  error : Option (List Char)
  scope : Option (List Char)
  resourceInfos : List ResourceInfoEntry
  deriving DecidableEq, Repr

/-- `PartialAccessToken.fetch_resources`, from the `send_request` result
on: the shared 401 handling, then the descriptor-parsing loop. -/
def fetchResources (status : Nat) (data : ResourcesData) :
    Except OAuthError ResourcesModel :=
  if status = 401 then insufficientScopeCheck data.error data.scope
  else
    Except.ok
      { experiences := (data.resourceInfos.map entryExperiences).flatten
        accounts := (data.resourceInfos.map entryAccounts).flatten }

/-! ### `generate_uri` -/

/-- The `scope` argument: a string or a list of strings. -/
inductive ScopeArg
  | one (s : List Char)
  | many (l : List (List Char))
  deriving DecidableEq, Repr

/-- `" ".join(scope) if type(scope) == list else scope`. -/
def scopeString : ScopeArg → List Char
  | ScopeArg.one s => s
  | ScopeArg.many l => List.intercalate [spaceC] l

/-- Decimal rendering of an integer, as Python `str()` produces. -/
def intChars (i : Int) : List Char :=
  if i < 0 then Char.ofNat 45 :: natChars i.natAbs else natChars i.natAbs

/-- The PKCE challenge value:
`base64.urlsafe_b64encode(hashlib.sha256(v.encode()).digest()).replace(b"=", b"")`,
built only when the verifier is truthy (non-`None`, nonempty). -/
def codeChallenge (codeVerifier : Option (List Char)) : Option (List Char) :=
  match codeVerifier with
  | some v => if v.isEmpty then none else some (b64urlNoPad (sha256 (strBytes v)))
  | none => none

/-- The ordered query parameters of `generate_uri` after the
`value is not None` filter: exactly the source's `params` dict with the
absent values dropped. -/
def generateUriParams (clientId : Int) (redirectUri : List Char)
    (scope : ScopeArg) (state : Option (List Char)) (generateCode : Bool)
    (codeVerifier : Option (List Char)) : List (List Char × List Char) :=
  let truthyVerifier :=
    match codeVerifier with
    | some v => !v.isEmpty
    | none => false
  ([("client_id".data, some (intChars clientId)),
    ("scope".data, some (scopeString scope)),
    ("state".data, state),
    ("redirect_uri".data, some redirectUri),
    ("response_type".data, some (if generateCode then "code".data else "none".data)),
    ("code_challenge".data, codeChallenge codeVerifier),
    ("code_challenge_method".data, if truthyVerifier then some "S256".data else none)]
    : List (List Char × Option (List Char))).filterMap
      (fun kv => kv.2.map (fun v => (kv.1, v)))

/-- An uppercase hexadecimal digit. -/
def hexDigit (n : Nat) : Char :=
  if n % 16 < 10 then Char.ofNat (48 + n % 16) else Char.ofNat (55 + n % 16)

/-- `urllib.parse.quote_plus` on one ASCII character: always-safe
characters pass through, a space becomes `+`, anything else is
percent-encoded. -/
def quotePlusChar (c : Char) : List Char :=
  if c = spaceC then [Char.ofNat 43]
  else if (65 ≤ c.toNat ∧ c.toNat ≤ 90) ∨ (97 ≤ c.toNat ∧ c.toNat ≤ 122) ∨
          (48 ≤ c.toNat ∧ c.toNat ≤ 57) ∨ c.toNat = 95 ∨ c.toNat = 46 ∨
          c.toNat = 45 ∨ c.toNat = 126 then [c]
  else [Char.ofNat 37, hexDigit (c.toNat / 16), hexDigit c.toNat]

/-- `urllib.parse.quote_plus` over an ASCII string. -/
def quotePlus (l : List Char) : List Char := (l.map quotePlusChar).flatten

/-- `OAuth2App.generate_uri`: the authorize endpoint with the urlencoded
filtered parameters. -/
def generateUri (clientId : Int) (redirectUri : List Char) (scope : ScopeArg)
    (state : Option (List Char)) (generateCode : Bool)
    (codeVerifier : Option (List Char)) : List Char :=
  "https://apis.roblox.com/oauth/v1/authorize?".data ++
    List.intercalate [Char.ofNat 38]
      ((generateUriParams clientId redirectUri scope state generateCode codeVerifier).map
        (fun kv => quotePlus kv.1 ++ eqC :: quotePlus kv.2))

/-! ## Supporting lemmas -/

theorem digitsValAux_append (l1 l2 : List Char) (acc v : Nat)
    (h : digitsValAux acc l1 = some v) :
    digitsValAux acc (l1 ++ l2) = digitsValAux v l2 := by
  induction l1 generalizing acc with
  | nil =>
      simp [digitsValAux] at h
      subst h
      rfl
  | cons c rest ih =>
      simp only [digitsValAux, List.cons_append] at h ⊢
      cases hd : pyDigit? c with
      | none => simp [hd] at h
      | some d =>
          simp only [hd] at h ⊢
          exact ih _ h

theorem pyDigit?_digitChar (n : Nat) : pyDigit? (digitChar n) = some (n % 10) := by
  have h : ∀ d, d < 10 → pyDigit? (digitChar d) = some d := by decide
  have hlt : n % 10 < 10 := Nat.mod_lt _ (by omega)
  have he : digitChar (n % 10) = digitChar n := by
    unfold digitChar
    have : n % 10 % 10 = n % 10 := by omega
    rw [this]
  rw [← he]
  exact h _ hlt

theorem digitChar_range (n : Nat) :
    48 ≤ (digitChar n).toNat ∧ (digitChar n).toNat ≤ 57 := by
  have h : ∀ d, d < 10 → 48 ≤ (digitChar d).toNat ∧ (digitChar d).toNat ≤ 57 := by
    decide
  have hlt : n % 10 < 10 := Nat.mod_lt _ (by omega)
  have he : digitChar (n % 10) = digitChar n := by
    unfold digitChar
    have : n % 10 % 10 = n % 10 := by omega
    rw [this]
  rw [← he]
  exact h _ hlt

theorem natCharsAux_congr :
    ∀ (f1 : Nat), ∀ (f2 n : Nat), n ≤ f1 → n ≤ f2 →
      natCharsAux f1 n = natCharsAux f2 n := by
  intro f1
  induction f1 with
  | zero =>
      intro f2 n h1 _
      have hn : n = 0 := by omega
      subst hn
      cases f2 with
      | zero => rfl
      | succ f => simp [natCharsAux]
  | succ f ih =>
      intro f2 n h1 h2
      by_cases hn : n < 10
      · cases f2 with
        | zero =>
            have : n = 0 := by omega
            subst this
            simp [natCharsAux]
        | succ g => simp [natCharsAux, hn]
      · cases f2 with
        | zero => omega
        | succ g =>
            simp only [natCharsAux, if_neg hn]
            have hd : n / 10 < n := Nat.div_lt_self (by omega) (by omega)
            rw [ih g (n / 10) (by omega) (by omega)]

theorem natChars_eq (n : Nat) :
    natChars n =
      if n < 10 then [digitChar n] else natChars (n / 10) ++ [digitChar (n % 10)] := by
  unfold natChars
  by_cases hn : n < 10
  · rw [if_pos hn]
    cases n with
    | zero => rfl
    | succ m => simp [natCharsAux, hn]
  · rw [if_neg hn]
    cases n with
    | zero => omega
    | succ m =>
        simp only [natCharsAux, if_neg hn]
        have hd : (m + 1) / 10 < m + 1 := Nat.div_lt_self (by omega) (by omega)
        rw [natCharsAux_congr m ((m + 1) / 10) ((m + 1) / 10) (by omega) (by omega)]

theorem natChars_ne_nil (n : Nat) : natChars n ≠ [] := by
  rw [natChars_eq]
  split <;> simp

theorem natChars_digit_range (n : Nat) :
    ∀ c ∈ natChars n, 48 ≤ c.toNat ∧ c.toNat ≤ 57 := by
  induction n using Nat.strong_induction_on with
  | _ n ih =>
      rw [natChars_eq]
      split
      · intro c hc
        simp only [List.mem_singleton] at hc
        subst hc
        exact digitChar_range n
      · intro c hc
        rw [List.mem_append] at hc
        rcases hc with hc | hc
        · exact ih (n / 10) (Nat.div_lt_self (by omega) (by omega)) c hc
        · simp only [List.mem_singleton] at hc
          subst hc
          exact digitChar_range (n % 10)

theorem digitsValAux_natChars (n : Nat) :
    ∀ acc, digitsValAux acc (natChars n) =
      some (acc * 10 ^ (natChars n).length + n) := by
  induction n using Nat.strong_induction_on with
  | _ n ih =>
      intro acc
      rw [natChars_eq]
      split
      · simp only [digitsValAux, pyDigit?_digitChar, List.length_singleton]
        have : n % 10 = n := by omega
        rw [this]
        simp [pow_one]
      · have hrec := ih (n / 10) (Nat.div_lt_self (by omega) (by omega)) acc
        rw [digitsValAux_append _ _ _ _ hrec]
        simp only [digitsValAux, pyDigit?_digitChar]
        have hmm : n % 10 % 10 = n % 10 := by omega
        rw [hmm]
        rw [List.length_append, List.length_singleton]
        congr 1
        have hdm : 10 * (n / 10) + n % 10 = n := Nat.div_add_mod n 10
        set L := (natChars (n / 10)).length with hL
        calc (acc * 10 ^ L + n / 10) * 10 + n % 10
            = acc * (10 ^ L * 10) + (10 * (n / 10) + n % 10) := by ring
          _ = acc * 10 ^ (L + 1) + n := by rw [hdm, pow_succ]

theorem digitsVal?_natChars (n : Nat) : digitsVal? (natChars n) = some n := by
  unfold digitsVal?
  rw [if_neg (by simp [List.isEmpty_iff, natChars_ne_nil])]
  rw [digitsValAux_natChars n 0]
  simp

theorem natChars_head_not_minus (n : Nat) :
    ∀ c ∈ natChars n, c ≠ Char.ofNat 45 := by
  intro c hc he
  have hr := natChars_digit_range n c hc
  rw [he] at hr
  have : (Char.ofNat 45).toNat = 45 := by decide
  omega

theorem pyInt_cons (c : Char) (rest : List Char) :
    pyInt (c :: rest) =
      if c = Char.ofNat 45 then
        (match digitsVal? rest with
         | some n => some (-(n : Int))
         | none => none)
      else
        (match digitsVal? (c :: rest) with
         | some n => some ((n : Nat) : Int)
         | none => none) := rfl

theorem pyInt_natChars (n : Nat) : pyInt (natChars n) = some (n : Int) := by
  cases h : natChars n with
  | nil => exact absurd h (natChars_ne_nil n)
  | cons c rest =>
      have hc : c ∈ natChars n := by rw [h]; exact List.mem_cons_self c rest
      rw [pyInt_cons, if_neg (natChars_head_not_minus n c hc), ← h,
        digitsVal?_natChars]

theorem natChars_ne_comma (n : Nat) : ∀ c ∈ natChars n, c ≠ commaC := by
  intro c hc he
  have hr := natChars_digit_range n c hc
  rw [he] at hr
  have : commaC.toNat = 44 := by decide
  omega

theorem natChars_ne_eq (n : Nat) : ∀ c ∈ natChars n, c ≠ eqC := by
  intro c hc he
  have hr := natChars_digit_range n c hc
  rw [he] at hr
  have : eqC.toNat = 61 := by decide
  omega

theorem splitChar_not_mem (sep : Char) (l : List Char) (h : sep ∉ l) :
    splitChar sep l = [l] := by
  induction l with
  | nil => rfl
  | cons c rest ih =>
      simp only [List.mem_cons, not_or] at h
      simp only [splitChar, ih h.2]
      rw [if_neg (fun e => h.1 e.symm)]
      rfl

theorem splitChar_cons (sep c : Char) (l : List Char) :
    splitChar sep (c :: l) =
      if c = sep then [] :: splitChar sep l
      else (c :: (splitChar sep l).headD []) :: (splitChar sep l).tail := by
  rw [splitChar]

theorem splitChar_append (sep : Char) (a b : List Char) (h : sep ∉ a) :
    splitChar sep (a ++ sep :: b) = a :: splitChar sep b := by
  induction a with
  | nil => simp [splitChar_cons]
  | cons c rest ih =>
      simp only [List.mem_cons, not_or] at h
      rw [List.cons_append, splitChar_cons, ih h.2,
        if_neg (fun e => h.1 e.symm)]
      rfl

theorem split1Char_cons (sep c : Char) (l : List Char) :
    split1Char sep (c :: l) =
      if c = sep then [[], l]
      else
        (match split1Char sep l with
         | x :: xs => (c :: x) :: xs
         | [] => [[c]]) := by
  rw [split1Char]

theorem split1Char_append (sep : Char) (a b : List Char) (h : sep ∉ a) :
    split1Char sep (a ++ sep :: b) = [a, b] := by
  induction a with
  | nil => simp [split1Char_cons]
  | cons c rest ih =>
      simp only [List.mem_cons, not_or] at h
      rw [List.cons_append, split1Char_cons, if_neg (fun e => h.1 e.symm),
        ih h.2]

theorem b64Char_std_ne_comma (n : Nat) : b64Char b64StdAlphabet n ≠ commaC := by
  have h : ∀ m, m < 64 → b64StdAlphabet.getD m (Char.ofNat 65) ≠ commaC := by decide
  exact h (n % 64) (Nat.mod_lt _ (by omega))

theorem b64chunks_std_ne_comma :
    ∀ bs, ∀ c ∈ b64chunks b64StdAlphabet bs, c ≠ commaC := by
  have hpad : b64Pad ≠ commaC := by decide
  intro bs
  induction bs using b64chunks.induct b64StdAlphabet with
  | case1 a b c rest ih =>
      intro x hx
      simp only [b64chunks, List.mem_cons] at hx
      rcases hx with h | h | h | h | h
      · exact h ▸ b64Char_std_ne_comma _
      · exact h ▸ b64Char_std_ne_comma _
      · exact h ▸ b64Char_std_ne_comma _
      · exact h ▸ b64Char_std_ne_comma _
      · exact ih x h
  | case2 a b =>
      intro x hx
      simp only [b64chunks, List.mem_cons] at hx
      rcases hx with h | h | h | h | h
      · exact h ▸ b64Char_std_ne_comma _
      · exact h ▸ b64Char_std_ne_comma _
      · exact h ▸ b64Char_std_ne_comma _
      · exact h ▸ hpad
      · simp at h
  | case3 a =>
      intro x hx
      simp only [b64chunks, List.mem_cons] at hx
      rcases hx with h | h | h | h | h
      · exact h ▸ b64Char_std_ne_comma _
      · exact h ▸ b64Char_std_ne_comma _
      · exact h ▸ hpad
      · exact h ▸ hpad
      · simp at h
  | case4 => intro x hx; simp [b64chunks] at hx

theorem b64encode_ne_comma (bs : Bytes) : ∀ c ∈ b64encode bs, c ≠ commaC :=
  b64chunks_std_ne_comma bs

theorem commaC_not_mem_tpart (t : Nat) : commaC ∉ "t=".data ++ natChars t := by
  intro hmem
  rw [List.mem_append] at hmem
  rcases hmem with h | h
  · revert h; decide
  · exact natChars_ne_comma t commaC h rfl

theorem splitComma_header (ts : Nat) (sig : List Char) (hsig : commaC ∉ sig) :
    splitChar commaC ("t=".data ++ natChars ts ++ commaC :: ("v1=".data ++ sig)) =
      ["t=".data ++ natChars ts, "v1=".data ++ sig] := by
  have h2 : commaC ∉ "v1=".data ++ sig := by
    intro hmem
    rw [List.mem_append] at hmem
    rcases hmem with h | h
    · revert h; decide
    · exact hsig h
  rw [splitChar_append _ _ _ (commaC_not_mem_tpart ts),
    splitChar_not_mem _ _ h2]

theorem splitEq_tpart (ts : Nat) :
    splitChar eqC ("t=".data ++ natChars ts) = [['t'], natChars ts] := by
  rw [show ("t=".data : List Char) = ['t', eqC] from by decide]
  show splitChar eqC (['t'] ++ eqC :: natChars ts) = _
  rw [splitChar_append _ _ _ (by decide),
    splitChar_not_mem _ _ (fun h => natChars_ne_eq ts eqC h rfl)]

theorem split1Eq_v1part (sig : List Char) :
    split1Char eqC ("v1=".data ++ sig) = [['v', '1'], sig] := by
  rw [show ("v1=".data : List Char) = ['v', '1', eqC] from by decide]
  show split1Char eqC (['v', '1'] ++ eqC :: sig) = _
  rw [split1Char_append _ _ _ (by decide)]

theorem headerTruthy_tHeader (ts : Nat) (rest : List Char) :
    headerTruthy (some ("t=".data ++ natChars ts ++ rest)) = true := by
  unfold headerTruthy
  rw [show ("t=".data : List Char) = ['t', eqC] from by decide]
  rfl

theorem sigStep_skipped (S : Bytes) (hS : secretTruthy S = false)
    (header : Option (List Char)) (body : Bytes) :
    sigStep S header body = Except.ok false := by
  unfold sigStep
  rw [hS]
  rfl

theorem sigStep_general_header (S : Bytes) (hS : S.isEmpty = false)
    (body : Bytes) (ts : Nat) (sig : List Char) (hsig : commaC ∉ sig) :
    sigStep (some S)
        (some ("t=".data ++ natChars ts ++ commaC :: ("v1=".data ++ sig))) body =
      (if b64encode (hmacSha256 S (strBytes (natChars ts) ++ dotByte :: body)) = sig
       then Except.ok false
       else Except.ok true) := by
  unfold sigStep
  have hsec : secretTruthy (some S) = true := by simp [secretTruthy, hS]
  have hhd : headerTruthy
      (some ("t=".data ++ natChars ts ++ commaC :: ("v1=".data ++ sig))) = true :=
    headerTruthy_tHeader ts _
  rw [hsec, hhd]
  simp only [Bool.not_true, Bool.false_eq_true, if_false, if_true,
    Option.getD_some, splitComma_header ts sig hsig]
  rw [show (["t=".data ++ natChars ts, "v1=".data ++ sig].getD 0 [] : List Char)
      = "t=".data ++ natChars ts from rfl]
  rw [show (["t=".data ++ natChars ts, "v1=".data ++ sig].getD 1 [] : List Char)
      = "v1=".data ++ sig from rfl]
  rw [splitEq_tpart, split1Eq_v1part]
  rfl

theorem tsStep_tHeader (ts : Nat) (sig : List Char) (hsig : commaC ∉ sig)
    (now : Int) :
    tsStep (some ("t=".data ++ natChars ts ++ commaC :: ("v1=".data ++ sig))) now =
      (if 0 < now - (ts : Int) ∧ now - (ts : Int) > 600 then Except.ok true
       else Except.ok false) := by
  unfold tsStep
  rw [headerTruthy_tHeader ts _]
  simp only [if_true, Option.getD_some, splitComma_header ts sig hsig]
  rw [show (["t=".data ++ natChars ts, "v1=".data ++ sig].getD 0 [] : List Char)
      = "t=".data ++ natChars ts from rfl]
  rw [splitEq_tpart]
  show (match pyInt (natChars ts) with
        | none => Except.error WhError.valueErr
        | some tv =>
            if 0 < now - tv ∧ now - tv > 600 then Except.ok true
            else Except.ok false) = _
  rw [pyInt_natChars]

theorem verifyPhase_validate (secret : Option Bytes)
    (header : Option (List Char)) (now : Int) (body : Bytes) :
    verifyPhase secret header true now body =
      (match sigStep secret header body with
       | Except.error e => Except.error e
       | Except.ok true => Except.ok true
       | Except.ok false => tsStep header now) := by
  unfold verifyPhase
  rfl

theorem bodyPhase_dispatch_shape (w : Webhook) (p : Option BodyVal) :
    (bodyPhase w p).1 = WhOutcome.response [] 204 ∨
      ∃ e, (bodyPhase w p).1 = WhOutcome.raised e := by
  cases p with
  | none => exact Or.inr ⟨WhError.valueErr, rfl⟩
  | some b =>
      rcases het : EVENT_TYPES b.eventType with _ | name
      · rcases hoe : w.onError
        · exact Or.inr ⟨WhError.unknownEventType,
            by simp [bodyPhase, dispatchPhase, het, hoe]⟩
        · exact Or.inl (by simp [bodyPhase, dispatchPhase, het, hoe])
      · rcases hev : w.events name with _ | handler
        · rcases hoe : w.onError
          · exact Or.inr ⟨WhError.undefinedEventType,
              by simp [bodyPhase, dispatchPhase, het, hev, hoe]⟩
          · exact Or.inl (by simp [bodyPhase, dispatchPhase, het, hev, hoe])
        · rcases hh : handler (buildNotification b name) with _ | tag
          · exact Or.inl (by simp [bodyPhase, dispatchPhase, het, hev, hh])
          · rcases hoe : w.onError
            · exact Or.inr ⟨WhError.handlerFailure tag,
                by simp [bodyPhase, dispatchPhase, het, hev, hh, hoe]⟩
            · exact Or.inl (by simp [bodyPhase, dispatchPhase, het, hev, hh, hoe])

/-! ## Claim theorems -/

/-- C1: for every secret `S`, body `B`, and timestamp `t` equal to the
current time, `process_notification` with header `t={t},v1={sig}` —
where `sig` is the base64 HMAC-SHA256 of `"{t}.{B}"` keyed by `S` —
passes verification and returns the dispatch phase's outcome (a
`("", 204)` response or a dispatch-phase exception), never the
`("Invalid signature", 401)` rejection. -/
theorem webhook_valid_signature_dispatches
    (S body : Bytes) (events : List Char → Option (NotificationVal → Option Nat))
    (onError : Bool) (parsed : Option BodyVal) (t : Nat) :
    processNotification ⟨some S, events, onError⟩ body parsed
        (some (validHeader t S body)) true (t : Int)
      = bodyPhase ⟨some S, events, onError⟩ parsed
    ∧ ∀ w p, (bodyPhase w p).1 = WhOutcome.response [] 204 ∨
        ∃ e, (bodyPhase w p).1 = WhOutcome.raised e := by
  refine ⟨?_, bodyPhase_dispatch_shape⟩
  have hne : commaC ∉ b64encode (hmacSha256 S (strBytes (natChars t) ++ dotByte :: body)) :=
    fun h => b64encode_ne_comma _ _ h rfl
  have hsig : sigStep (some S) (some (validHeader t S body)) body = Except.ok false := by
    unfold validHeader
    cases hS : S.isEmpty with
    | true => exact sigStep_skipped _ (by simp [secretTruthy, hS]) _ _
    | false => rw [sigStep_general_header S hS body t _ hne, if_pos rfl]
  have hts : tsStep (some (validHeader t S body)) (t : Int) = Except.ok false := by
    unfold validHeader
    rw [tsStep_tHeader t _ hne, if_neg (by omega)]
  unfold processNotification
  rw [verifyPhase_validate, hsig, hts]

/-- C2: with a truthy shared secret configured and validation enabled,
`process_notification` answers `("Invalid signature", 401)` when the
header is missing (or empty), when it splits into fewer than two
comma-separated parts, and when the provided `v1` value differs from the
reconstructed base64 HMAC — in particular for a signature altered in one
byte. -/
theorem webhook_rejects_invalid_signature
    (S body : Bytes) (hS : S.isEmpty = false)
    (events : List Char → Option (NotificationVal → Option Nat)) (onError : Bool)
    (parsed : Option BodyVal) (now : Int) :
    processNotification ⟨some S, events, onError⟩ body parsed none true now
        = (WhOutcome.response invalidSigMsg 401, none)
    ∧ (∀ hdr, (splitChar commaC hdr).length < 2 →
        processNotification ⟨some S, events, onError⟩ body parsed (some hdr) true now
          = (WhOutcome.response invalidSigMsg 401, none))
    ∧ (∀ (ts : Nat) (sig : List Char), commaC ∉ sig →
        sig ≠ b64encode (hmacSha256 S (strBytes (natChars ts) ++ dotByte :: body)) →
        processNotification ⟨some S, events, onError⟩ body parsed
            (some ("t=".data ++ natChars ts ++ commaC :: ("v1=".data ++ sig)))
            true now
          = (WhOutcome.response invalidSigMsg 401, none)) := by
  refine ⟨?_, ?_, ?_⟩
  · have hsig : sigStep (some S) none body = Except.ok true := by
      unfold sigStep
      simp [secretTruthy, hS, headerTruthy]
    unfold processNotification
    rw [verifyPhase_validate, hsig]
  · intro hdr hlen
    have hsig : sigStep (some S) (some hdr) body = Except.ok true := by
      unfold sigStep
      rcases hh : hdr.isEmpty
      · simp [secretTruthy, hS, headerTruthy, hh, hlen]
      · simp [secretTruthy, hS, headerTruthy, hh]
    unfold processNotification
    rw [verifyPhase_validate, hsig]
  · intro ts sig hc hne
    have hsig : sigStep (some S)
        (some ("t=".data ++ natChars ts ++ commaC :: ("v1=".data ++ sig))) body
        = Except.ok true := by
      rw [sigStep_general_header S hS body ts sig hc,
        if_neg (fun e => hne e.symm)]
    unfold processNotification
    rw [verifyPhase_validate, hsig]

set_option maxRecDepth 100000 in
/-- C2 witness: the rejection theorem applied at a concrete secret,
body, and a concrete wrong signature. -/
theorem webhook_rejects_invalid_signature_witness :
    processNotification ⟨some [115], fun _ => none, false⟩ [66] none none true 0
        = (WhOutcome.response invalidSigMsg 401, none)
    ∧ processNotification ⟨some [115], fun _ => none, false⟩ [66] none
          (some "junk".data) true 0
        = (WhOutcome.response invalidSigMsg 401, none)
    ∧ processNotification ⟨some [115], fun _ => none, false⟩ [66] none
          (some ("t=".data ++ natChars 0 ++ commaC :: ("v1=".data ++ "AAAA".data)))
          true 0
        = (WhOutcome.response invalidSigMsg 401, none) := by
  obtain ⟨h1, h2, h3⟩ :=
    webhook_rejects_invalid_signature [115] [66] (by decide) (fun _ => none)
      false none 0
  exact ⟨h1, h2 "junk".data (by decide), h3 0 "AAAA".data (by decide) (by decide)⟩

/-- C3: the replay-window check in the source is the Python chained
comparison `0 < time.time() - t > 600`, which is `now - t > 600` alone,
so a timestamp 700 seconds in the FUTURE (now = 1000, t = 1700) is NOT
rejected — verification passes and the unknown-event dispatch error is
reached — while a timestamp 700 seconds in the past is rejected with
`("Invalid signature", 401)` as the claim expects. -/
theorem webhook_future_timestamp_not_rejected :
    processNotification ⟨none, fun _ => none, false⟩ []
        (some ⟨"n".data, "e".data, "X".data, 0, []⟩)
        (some "t=1700,v1=x".data) true 1000
      = (WhOutcome.raised WhError.unknownEventType, none)
    ∧ processNotification ⟨none, fun _ => none, false⟩ []
        (some ⟨"n".data, "e".data, "X".data, 0, []⟩)
        (some "t=300,v1=x".data) true 1000
      = (WhOutcome.response invalidSigMsg 401, none) := by
  exact ⟨rfl, rfl⟩

/-- C7: on a verified body, `EventType = "SampleNotification"` with a
registered non-raising `on_test` handler yields the `("", 204)` response
and delivers a `TestNotification` whose user carries the payload's
`UserId`; a recognized type with no registered handler raises
`UndefinedEventType`; an `EventType` outside the fixed mapping raises
`UnknownEventType`; and the two errors are distinct (with no error
handler registered both propagate to the caller). -/
theorem webhook_event_dispatch
    (w : Webhook) (b : BodyVal) (h : NotificationVal → Option Nat) :
    (b.eventType = "SampleNotification".data →
      w.events "on_test".data = some h →
      h (buildNotification b "on_test".data) = none →
      dispatchPhase w b =
        (WhOutcome.response [] 204,
         some ("on_test".data,
           NotificationVal.test b.notificationId (normalizeEventTime b.eventTime)
             ⟨b.payloadUserId⟩)))
    ∧ (b.eventType = "SampleNotification".data →
        w.events "on_test".data = none → w.onError = false →
        dispatchPhase w b = (WhOutcome.raised WhError.undefinedEventType, none))
    ∧ (∀ b2 : BodyVal, EVENT_TYPES b2.eventType = none → w.onError = false →
        dispatchPhase w b2 = (WhOutcome.raised WhError.unknownEventType, none))
    ∧ WhError.unknownEventType ≠ WhError.undefinedEventType := by
  refine ⟨?_, ?_, ?_, by decide⟩
  · intro hbt hev hh
    have het : EVENT_TYPES b.eventType = some "on_test".data := by
      rw [hbt]; rfl
    simp [buildNotification] at hh
    simp [dispatchPhase, het, hev, hh, buildNotification]
  · intro hbt hev hoe
    have het : EVENT_TYPES b.eventType = some "on_test".data := by
      rw [hbt]; rfl
    simp [dispatchPhase, het, hev, hoe]
  · intro b2 het hoe
    simp [dispatchPhase, het, hoe]

/-- C7 witness: the dispatch theorem applied at a concrete webhook and
body, with `UserId = 55` delivered inside the `TestNotification`. -/
theorem webhook_event_dispatch_witness :
    dispatchPhase
        ⟨none,
         fun n => if n = "on_test".data then some (fun _ => none) else none,
         false⟩
        ⟨"n".data, "e".data, "SampleNotification".data, 55, []⟩
      = (WhOutcome.response [] 204,
         some ("on_test".data,
           NotificationVal.test "n".data (normalizeEventTime "e".data) ⟨55⟩))
    ∧ dispatchPhase ⟨none, fun _ => none, false⟩
        ⟨"n".data, "e".data, "SampleNotification".data, 55, []⟩
      = (WhOutcome.raised WhError.undefinedEventType, none)
    ∧ dispatchPhase ⟨none, fun _ => none, false⟩
        ⟨"n".data, "e".data, "Bogus".data, 55, []⟩
      = (WhOutcome.raised WhError.unknownEventType, none) := by
  refine ⟨?_, ?_, ?_⟩
  · exact (webhook_event_dispatch
      ⟨none, fun n => if n = "on_test".data then some (fun _ => none) else none,
       false⟩
      ⟨"n".data, "e".data, "SampleNotification".data, 55, []⟩
      (fun _ => none)).1 rfl (by simp) rfl
  · exact (webhook_event_dispatch ⟨none, fun _ => none, false⟩
      ⟨"n".data, "e".data, "SampleNotification".data, 55, []⟩
      (fun _ => none)).2.1 rfl rfl rfl
  · exact (webhook_event_dispatch ⟨none, fun _ => none, false⟩
      ⟨"n".data, "e".data, "SampleNotification".data, 55, []⟩
      (fun _ => none)).2.2.1
      ⟨"n".data, "e".data, "Bogus".data, 55, []⟩ (by decide) rfl

/-- C4 counterexample: a token-endpoint response with status 303 (any
status below 400 makes `response.ok` true in the requests library)
makes `exchange_code` return an `AccessToken`, not raise the generic
provider exception the claim demands for a non-2xx status outside
{400, 401, 5xx}. -/
theorem exchange_code_status_303_returns_token :
    exchangeCode 3600 ⟨none, none⟩
        ⟨303, ⟨"a".data, "r".data, "s".data, 1, none⟩⟩ ⟨200, []⟩
        (fun _ _ => none) 0
      = (Except.ok (mkAccessToken ⟨"a".data, "r".data, "s".data, 1, none⟩ none 0),
         ⟨none, none⟩, 0)
    ∧ (exchangeCode 3600 ⟨none, none⟩
        ⟨303, ⟨"a".data, "r".data, "s".data, 1, none⟩⟩ ⟨200, []⟩
        (fun _ _ => none) 0).1 ≠ Except.error (OAuthError.generic 303) := by
  exact ⟨rfl, by decide⟩

/-- C4 amended: for a token response without an ID token,
`exchange_code` returns an `AccessToken` for EVERY status below 400
(`response.ok` of requests), raises `InvalidKey` exactly at 400,
`InvalidCode` (InvalidAuthorizationCode) exactly at 401,
`ServiceUnavailable` exactly at status ≥ 500, and the generic provider
exception carrying the status for 402-499. -/
theorem exchange_code_error_mapping
    (ttl : Int) (st : CertsCache) (resp : TokenHttpResponse)
    (certsResp : CertsResponse)
    (jwtDecode : List Char → CertKey → Option ClaimsData) (now : Int)
    (hNoIdt : resp.payload.idToken = none) :
    (resp.status < 400 →
      (exchangeCode ttl st resp certsResp jwtDecode now).1
        = Except.ok (mkAccessToken resp.payload none now))
    ∧ (resp.status = 400 →
        (exchangeCode ttl st resp certsResp jwtDecode now).1
          = Except.error OAuthError.invalidKey)
    ∧ (resp.status = 401 →
        (exchangeCode ttl st resp certsResp jwtDecode now).1
          = Except.error OAuthError.invalidCode)
    ∧ (500 ≤ resp.status →
        (exchangeCode ttl st resp certsResp jwtDecode now).1
          = Except.error OAuthError.serviceUnavailable)
    ∧ (402 ≤ resp.status → resp.status < 500 →
        (exchangeCode ttl st resp certsResp jwtDecode now).1
          = Except.error (OAuthError.generic resp.status))
    ∧ ((exchangeCode ttl st resp certsResp jwtDecode now).1
          = Except.error OAuthError.invalidKey → resp.status = 400)
    ∧ ((exchangeCode ttl st resp certsResp jwtDecode now).1
          = Except.error OAuthError.invalidCode → resp.status = 401)
    ∧ ((exchangeCode ttl st resp certsResp jwtDecode now).1
          = Except.error OAuthError.serviceUnavailable → 500 ≤ resp.status) := by
  have hmain : exchangeCode ttl st resp certsResp jwtDecode now
      = (exchangeStatusResult resp none now, st, 0) := by
    unfold exchangeCode
    rw [hNoIdt]
  rw [hmain]
  unfold exchangeStatusResult
  refine ⟨?_, ?_, ?_, ?_, ?_, ?_, ?_, ?_⟩
  · intro h
    rw [if_pos (by simp [respOk]; omega)]
  · intro h
    rw [if_neg (by simp [respOk]; omega), if_pos h]
  · intro h
    rw [if_neg (by simp [respOk]; omega), if_neg (by omega), if_pos h]
  · intro h
    rw [if_neg (by simp [respOk]; omega), if_neg (by omega), if_neg (by omega),
      if_pos h]
  · intro h1 h2
    rw [if_neg (by simp [respOk]; omega), if_neg (by omega), if_neg (by omega),
      if_neg (by omega)]
  · intro h
    split_ifs at h <;> simp_all
  · intro h
    split_ifs at h <;> simp_all
  · intro h
    split_ifs at h <;> simp_all

/-- C4 witness: the mapping theorem applied at a concrete 400 response. -/
theorem exchange_code_error_mapping_witness :
    (exchangeCode 3600 ⟨none, none⟩
        ⟨400, ⟨"a".data, "r".data, "s".data, 1, none⟩⟩ ⟨200, []⟩
        (fun _ _ => none) 0).1 = Except.error OAuthError.invalidKey := by
  exact (exchange_code_error_mapping 3600 ⟨none, none⟩
    ⟨400, ⟨"a".data, "r".data, "s".data, 1, none⟩⟩ ⟨200, []⟩
    (fun _ _ => none) 0 rfl).2.1 rfl

/-- C5 counterexample: `refresh_token`'s status dispatch has no 401
branch, so a 401 token-endpoint response raises the generic provider
exception, not `InvalidCode` (InvalidAuthorizationCode) as the claim
says. -/
theorem refresh_token_401_raises_generic :
    refreshTokenResult ⟨401, ⟨"a".data, "r".data, "s".data, 1, none⟩⟩ 0
      = Except.error (OAuthError.generic 401)
    ∧ refreshTokenResult ⟨401, ⟨"a".data, "r".data, "s".data, 1, none⟩⟩ 0
      ≠ Except.error OAuthError.invalidCode := by
  exact ⟨rfl, by decide⟩

/-- C5 amended: `refresh_token` returns an `AccessToken` for every
status below 400, raises `InvalidKey` exactly at 400,
`ServiceUnavailable` exactly at status ≥ 500, and the generic provider
exception carrying the status everywhere else (401 included); it never
raises `InvalidCode`. -/
theorem refresh_token_error_mapping (resp : TokenHttpResponse) (now : Int) :
    (resp.status < 400 →
      refreshTokenResult resp now = Except.ok (mkAccessToken resp.payload none now))
    ∧ (resp.status = 400 →
        refreshTokenResult resp now = Except.error OAuthError.invalidKey)
    ∧ (500 ≤ resp.status →
        refreshTokenResult resp now = Except.error OAuthError.serviceUnavailable)
    ∧ (401 ≤ resp.status → resp.status < 500 →
        refreshTokenResult resp now = Except.error (OAuthError.generic resp.status))
    ∧ (refreshTokenResult resp now = Except.error OAuthError.invalidKey →
        resp.status = 400)
    ∧ (refreshTokenResult resp now = Except.error OAuthError.serviceUnavailable →
        500 ≤ resp.status)
    ∧ refreshTokenResult resp now ≠ Except.error OAuthError.invalidCode := by
  unfold refreshTokenResult
  refine ⟨?_, ?_, ?_, ?_, ?_, ?_, ?_⟩
  · intro h
    rw [if_pos (by simp [respOk]; omega)]
  · intro h
    rw [if_neg (by simp [respOk]; omega), if_pos h]
  · intro h
    rw [if_neg (by simp [respOk]; omega), if_neg (by omega), if_pos h]
  · intro h1 h2
    rw [if_neg (by simp [respOk]; omega), if_neg (by omega), if_neg (by omega)]
  · intro h
    split_ifs at h <;> simp_all
  · intro h
    split_ifs at h <;> simp_all
  · intro h
    split_ifs at h <;> simp_all

/-- C5 witness: the mapping theorem applied at a concrete 401 response
(generic exception) and a concrete 400 response (`InvalidKey`). -/
theorem refresh_token_error_mapping_witness :
    refreshTokenResult ⟨402, ⟨"a".data, "r".data, "s".data, 1, none⟩⟩ 0
      = Except.error (OAuthError.generic 402)
    ∧ refreshTokenResult ⟨400, ⟨"a".data, "r".data, "s".data, 1, none⟩⟩ 0
      = Except.error OAuthError.invalidKey := by
  exact ⟨(refresh_token_error_mapping
      ⟨402, ⟨"a".data, "r".data, "s".data, 1, none⟩⟩ 0).2.2.2.1 (by decide) (by decide),
    (refresh_token_error_mapping
      ⟨400, ⟨"a".data, "r".data, "s".data, 1, none⟩⟩ 0).2.1 rfl⟩

/-- C6 counterexample: when the certs endpoint returns an EMPTY key
list, the cached empty list is falsy in Python, so a second verification
one second later — well within the ttl — performs a second underlying
fetch: two verifications within ttl made two fetches, not one. -/
theorem certs_cache_empty_keys_double_fetch :
    getOpenidKeys 3600 ⟨none, none⟩ 0 ⟨200, []⟩
      = (Except.ok ([], ⟨some [], some 0⟩), 1)
    ∧ getOpenidKeys 3600 ⟨some [], some 0⟩ 1 ⟨200, []⟩
      = (Except.ok ([], ⟨some [], some 1⟩), 1) := by
  exact ⟨rfl, rfl⟩

/-- C6 amended: provided the first fetch succeeds with a NONEMPTY key
list, a second verification within ttl seconds reuses the cached keys
with no further fetch (one fetch total); a verification finding the
cache falsy (absent or empty) or older than ttl performs one fetch that
fully replaces the cached keys and records the fetch time; a failed
certs fetch raises `ServiceUnavailable`; and `exchange_code`'s fetch
count for an ID-token-bearing response is exactly the cache step's. -/
theorem certs_cache_single_fetch
    (ttl t1 t2 : Int) (r1 r2 : CertsResponse)
    (hok : respOk r1.status = true) (hne : r1.keys ≠ [])
    (hwin : t2 - t1 ≤ ttl) :
    getOpenidKeys ttl ⟨none, none⟩ t1 r1
        = (Except.ok (r1.keys, ⟨some r1.keys, some t1⟩), 1)
    ∧ getOpenidKeys ttl ⟨some r1.keys, some t1⟩ t2 r2
        = (Except.ok (r1.keys, ⟨some r1.keys, some t1⟩), 0)
    ∧ (∀ (st : CertsCache) (now : Int) (r : CertsResponse),
        certsTruthy st = false → respOk r.status = true →
        getOpenidKeys ttl st now r
          = (Except.ok (r.keys, ⟨some r.keys, some now⟩), 1))
    ∧ (∀ (st : CertsCache) (now : Int) (r : CertsResponse),
        now - st.updatedAt.getD 0 > ttl → respOk r.status = true →
        getOpenidKeys ttl st now r
          = (Except.ok (r.keys, ⟨some r.keys, some now⟩), 1))
    ∧ (∀ (st : CertsCache) (now : Int) (r : CertsResponse),
        certsTruthy st = false → respOk r.status = false →
        getOpenidKeys ttl st now r
          = (Except.error OAuthError.serviceUnavailable, 1))
    ∧ (∀ (resp : TokenHttpResponse) (tok : List Char) (cr : CertsResponse)
          (jwtD : List Char → CertKey → Option ClaimsData)
          (st' : CertsCache) (now' : Int),
        resp.payload.idToken = some tok →
        (exchangeCode ttl st' resp cr jwtD now').2.2
          = (getOpenidKeys ttl st' now' cr).2) := by
  refine ⟨?_, ?_, ?_, ?_, ?_, ?_⟩
  · simp [getOpenidKeys, certsTruthy, hok]
  · rcases hk : r1.keys with _ | ⟨k, ks⟩
    · exact absurd hk hne
    · simp [getOpenidKeys, certsTruthy, hk,
        decide_eq_false (show ¬(t2 - t1 > ttl) by omega)]
  · intro st now r h1 h2
    simp [getOpenidKeys, h1, h2]
  · intro st now r h1 h2
    simp [getOpenidKeys, h2, decide_eq_true h1]
  · intro st now r h1 h2
    simp [getOpenidKeys, h1, h2]
  · intro resp tok cr jwtD st' now' hidt
    unfold exchangeCode
    simp only [hidt]
    rcases hg : getOpenidKeys ttl st' now' cr with ⟨res, cnt⟩
    rcases res with e | ⟨keys, st2⟩ <;> simp

/-- C6 witness: the cache theorem applied at one concrete key fetched at
time 0 and reused at time 10 with ttl 3600. -/
theorem certs_cache_single_fetch_witness :
    getOpenidKeys 3600 ⟨none, none⟩ 0 ⟨200, [⟨"x".data, "y".data⟩]⟩
      = (Except.ok ([⟨"x".data, "y".data⟩],
          ⟨some [⟨"x".data, "y".data⟩], some 0⟩), 1)
    ∧ getOpenidKeys 3600 ⟨some [⟨"x".data, "y".data⟩], some 0⟩ 10 ⟨200, []⟩
      = (Except.ok ([⟨"x".data, "y".data⟩],
          ⟨some [⟨"x".data, "y".data⟩], some 0⟩), 0) := by
  obtain ⟨h1, h2, -⟩ := certs_cache_single_fetch 3600 0 10
    ⟨200, [⟨"x".data, "y".data⟩]⟩ ⟨200, []⟩ (by decide) (by decide) (by decide)
  exact ⟨h1, h2⟩

/-- C8 counterexample: the EMPTY string is a code_verifier string, yet
`"" if code_verifier else None` is falsy in Python, so the built URI
carries neither `code_challenge` nor `code_challenge_method` — the
claim's universal "for every code_verifier string" fails at `""`. -/
theorem generate_uri_empty_verifier_omits_challenge :
    "code_challenge".data
        ∉ (generateUriParams 1 "r".data (ScopeArg.one "openid".data) none true
            (some [])).map Prod.fst
    ∧ "code_challenge_method".data
        ∉ (generateUriParams 1 "r".data (ScopeArg.one "openid".data) none true
            (some [])).map Prod.fst := by
  exact ⟨by decide, by decide⟩

/-- C8 amended: the authorization URI is the authorize endpoint plus the
encoded filtered parameter list; with a truthy (nonempty) code verifier
the parameters include `code_challenge = base64url_nopad(sha256(verifier))`
and `code_challenge_method = S256`; with no verifier neither parameter
appears; and an omitted `state` never appears as a parameter. -/
theorem generate_uri_pkce
    (clientId : Int) (redirectUri : List Char) (scope : ScopeArg)
    (stt : Option (List Char)) (gc : Bool) :
    (∀ cv, generateUri clientId redirectUri scope stt gc cv
        = "https://apis.roblox.com/oauth/v1/authorize?".data ++
            List.intercalate [Char.ofNat 38]
              ((generateUriParams clientId redirectUri scope stt gc cv).map
                (fun kv => quotePlus kv.1 ++ eqC :: quotePlus kv.2)))
    ∧ (∀ v, v ≠ [] →
        ("code_challenge".data, b64urlNoPad (sha256 (strBytes v)))
            ∈ generateUriParams clientId redirectUri scope stt gc (some v)
          ∧ ("code_challenge_method".data, "S256".data)
            ∈ generateUriParams clientId redirectUri scope stt gc (some v))
    ∧ ("code_challenge".data
          ∉ (generateUriParams clientId redirectUri scope stt gc none).map Prod.fst
        ∧ "code_challenge_method".data
          ∉ (generateUriParams clientId redirectUri scope stt gc none).map Prod.fst)
    ∧ (stt = none → ∀ cv, "state".data
        ∉ (generateUriParams clientId redirectUri scope stt gc cv).map Prod.fst) := by
  refine ⟨fun cv => rfl, ?_, ?_, ?_⟩
  · intro v hv
    have hvE : v.isEmpty = false := by
      cases v with
      | nil => exact absurd rfl hv
      | cons c l => rfl
    rcases stt with _ | s <;>
      simp [generateUriParams, codeChallenge, hvE]
  · rcases stt with _ | s <;>
      · constructor <;>
        · simp only [generateUriParams, codeChallenge, List.filterMap,
            Option.map_some', Option.map_none', List.map]
          decide
  · intro hst cv
    subst hst
    rcases cv with _ | v
    · simp only [generateUriParams, codeChallenge, List.filterMap,
        Option.map_some', Option.map_none', List.map]
      decide
    · by_cases hvE : v.isEmpty = true <;>
        · simp only [generateUriParams, codeChallenge, hvE, List.filterMap,
            Option.map_some', Option.map_none', List.map]
          decide

/-- C8 witness: the PKCE theorem applied at a concrete verifier and at
an omitted state. -/
theorem generate_uri_pkce_witness :
    ("code_challenge".data, b64urlNoPad (sha256 (strBytes "x".data)))
        ∈ generateUriParams 1 "r".data (ScopeArg.one "openid".data) none true
            (some "x".data)
    ∧ ("code_challenge_method".data, "S256".data)
        ∈ generateUriParams 1 "r".data (ScopeArg.one "openid".data) none true
            (some "x".data)
    ∧ "state".data
        ∉ (generateUriParams 1 "r".data (ScopeArg.one "openid".data) none true
            (some "x".data)).map Prod.fst := by
  obtain ⟨-, h2, -, h4⟩ :=
    generate_uri_pkce 1 "r".data (ScopeArg.one "openid".data) none true
  obtain ⟨ha, hb⟩ := h2 "x".data (by decide)
  exact ⟨ha, hb, h4 rfl (some "x".data)⟩

/-- C9 counterexample: `revoke_token` never inspects the response body,
so a 401 response — whatever its body, including one carrying
`error = "insufficient_scope"` — raises the generic provider exception,
not `InsufficientScope`; so not every network-backed token operation of
the shared policy surfaces the missing scope. -/
theorem revoke_401_no_insufficient_scope :
    revokeTokenResult 401 = Except.error (OAuthError.generic 401)
    ∧ revokeTokenResult 401
      ≠ Except.error (OAuthError.insufficientScope "openid".data) := by
  exact ⟨rfl, by decide⟩

/-- C9 amended: the three fetch operations (`fetch_userinfo`,
`fetch_token_info`, `fetch_resources`) raise `InsufficientScope`
carrying the body's missing-scope value on a 401 response whose body has
`error = "insufficient_scope"`, and `InvalidKey` on any other 401 error
body — two distinct exceptions. -/
theorem fetch_insufficient_scope_mapping :
    (∀ (d : UserinfoData) (s : List Char),
        d.error = some "insufficient_scope".data → d.scope = some s →
        fetchUserinfo 401 d = Except.error (OAuthError.insufficientScope s))
    ∧ (∀ (d : UserinfoData) (e : List Char),
        d.error = some e → e ≠ "insufficient_scope".data →
        fetchUserinfo 401 d = Except.error OAuthError.invalidKey)
    ∧ (∀ (d : IntrospectData) (s : List Char),
        d.error = some "insufficient_scope".data → d.scope = some s →
        fetchTokenInfo 401 d = Except.error (OAuthError.insufficientScope s))
    ∧ (∀ (d : IntrospectData) (e : List Char),
        d.error = some e → e ≠ "insufficient_scope".data →
        fetchTokenInfo 401 d = Except.error OAuthError.invalidKey)
    ∧ (∀ (d : ResourcesData) (s : List Char),
        d.error = some "insufficient_scope".data → d.scope = some s →
        fetchResources 401 d = Except.error (OAuthError.insufficientScope s))
    ∧ (∀ (d : ResourcesData) (e : List Char),
        d.error = some e → e ≠ "insufficient_scope".data →
        fetchResources 401 d = Except.error OAuthError.invalidKey)
    ∧ (∀ s, OAuthError.insufficientScope s ≠ OAuthError.invalidKey) := by
  refine ⟨?_, ?_, ?_, ?_, ?_, ?_, fun s h => by simp at h⟩ <;>
    intro d e h1 h2 <;>
    simp [fetchUserinfo, fetchTokenInfo, fetchResources,
      insufficientScopeCheck, h1, h2]

/-- C9 witness: the mapping theorem applied at concrete 401 bodies. -/
theorem fetch_insufficient_scope_mapping_witness :
    fetchUserinfo 401
        ⟨some "insufficient_scope".data, some "openid".data,
         ⟨none, none, none, none, none, none⟩⟩
      = Except.error (OAuthError.insufficientScope "openid".data)
    ∧ fetchTokenInfo 401
        ⟨some "insufficient_scope".data, some "openid".data,
         none, none, none, none, none, none⟩
      = Except.error (OAuthError.insufficientScope "openid".data)
    ∧ fetchResources 401 ⟨some "other".data, some "openid".data, []⟩
      = Except.error OAuthError.invalidKey := by
  obtain ⟨h1, -, h3, -, -, h6, -⟩ := fetch_insufficient_scope_mapping
  exact ⟨h1 _ _ rfl rfl, h3 _ _ rfl rfl, h6 _ "other".data rfl (by decide)⟩

/-- The success branch of the token-status dispatch fixes the token's
expiry to the construction clock plus `86400 * expires_in`. -/
theorem exchangeStatusResult_ok_expiry (resp : TokenHttpResponse)
    (idt : Option ClaimsData) (now : Int) (tok : AccessTokenModel)
    (h : exchangeStatusResult resp idt now = Except.ok tok) :
    tok.expiresAt = now + 86400 * resp.payload.expiresIn := by
  unfold exchangeStatusResult at h
  split_ifs at h
  · injection h with h2
    rw [← h2]
    rfl

/-- C10: every `AccessToken` produced by a successful `exchange_code` or
`refresh_token` has `expires_at` equal to the construction-time clock
plus `expires_in` interpreted as DAYS — the raw `expires_in` number is
`timedelta`'s first (days) argument — i.e. `now + 86400 * expires_in`
seconds, not `now + expires_in`. -/
theorem access_token_expires_in_days
    (ttl : Int) (st : CertsCache) (resp : TokenHttpResponse)
    (certsResp : CertsResponse)
    (jwtD : List Char → CertKey → Option ClaimsData) (now : Int) :
    (∀ tok, (exchangeCode ttl st resp certsResp jwtD now).1 = Except.ok tok →
        tok.expiresAt = now + 86400 * resp.payload.expiresIn)
    ∧ (∀ tok, refreshTokenResult resp now = Except.ok tok →
        tok.expiresAt = now + 86400 * resp.payload.expiresIn)
    ∧ (∀ (payload : TokenPayload) (idt : Option ClaimsData) (t : Int),
        (mkAccessToken payload idt t).expiresAt = t + 86400 * payload.expiresIn) := by
  refine ⟨?_, ?_, fun payload idt t => rfl⟩
  · intro tok h
    rcases hit : resp.payload.idToken with _ | t
    · unfold exchangeCode at h
      simp only [hit] at h
      exact exchangeStatusResult_ok_expiry resp none now tok h
    · unfold exchangeCode at h
      simp only [hit] at h
      rcases hg : getOpenidKeys ttl st now certsResp with ⟨res, cnt⟩
      rw [hg] at h
      rcases res with e | ⟨keys, st2⟩
      · dsimp only at h
        exact absurd h (by simp)
      · dsimp only at h
        exact exchangeStatusResult_ok_expiry resp _ now tok h
  · intro tok h
    unfold refreshTokenResult at h
    split_ifs at h
    · injection h with h2
      rw [← h2]
      rfl

/-- C10 witness: a concrete successful exchange at clock 5 with
`expires_in = 7` yields expiry `5 + 86400 * 7`. -/
theorem access_token_expires_in_days_witness :
    (exchangeCode 3600 ⟨none, none⟩
        ⟨200, ⟨"a".data, "r".data, "s".data, 7, none⟩⟩ ⟨200, []⟩
        (fun _ _ => none) 5).1
      = Except.ok (mkAccessToken ⟨"a".data, "r".data, "s".data, 7, none⟩ none 5)
    ∧ (mkAccessToken ⟨"a".data, "r".data, "s".data, 7, none⟩ none 5).expiresAt
      = 5 + 86400 * 7 := by
  refine ⟨rfl, ?_⟩
  exact (access_token_expires_in_days 3600 ⟨none, none⟩
    ⟨200, ⟨"a".data, "r".data, "s".data, 7, none⟩⟩ ⟨200, []⟩
    (fun _ _ => none) 5).1
    (mkAccessToken ⟨"a".data, "r".data, "s".data, 7, none⟩ none 5) rfl

end RblxOC
